import Mathlib

/-!
Verification of the EnvironmentalMonitoringDevice firmware against its
natural-language specification.

The development shallowly embeds the coordination layer of the firmware:

* `EventBusModel` — the thread-safe publish/subscribe bus of
  `src/core/EventBus.cpp` (the "core" bus) and the older bus of
  `EnvironmentalMonitoringDevice/src/EventBus.cpp` (the "legacy" bus).
  The FreeRTOS mutex is modelled by a `locked : Bool` flag on the bus:
  `locked = true` means the mutex is currently held (in particular it is
  held by the dispatching call itself while handlers run, since dispatch
  happens between take and give on the caller's context and the mutex
  created by `xSemaphoreCreateMutex` is not recursive).  A take with a
  bounded timeout on a held mutex fails; a take with `portMAX_DELAY` on a
  mutex held by the caller's own task never returns.
* `NozzleModel` — the `VenturiNozzle` actuator state machine of
  `src/actuators/VenturiNozzle.cpp` (pressurize → spray → purge).
  Hardware effects (`pinMode`/`digitalWrite`), event publications and
  state transitions are recorded in an explicit trace; `vTaskDelay(d)` is
  modelled as advancing the task-local clock by exactly `d` milliseconds.
* `RelayModel` — `src/actuators/Relay.cpp` and the
  `VenturiNozzleActuator` of `src/device/EnvironmentalDevice.cpp`.
* `RegistryModel` — device registration of `src/core/Managers.cpp`
  (`SensorManager::addSensor`, `ActuatorManager::addActuator`).
* `SensorModel` — the `SHT30Sensor` driver of
  `src/sensors/SHT3xSensor.cpp` and `SensorManager::readAllSensors` of
  `src/sensors/SensorManager.cpp`.

Serial logging is not modelled except where a claim mentions it (the
timeout and per-handler-failure logs of the bus, recorded as observations).
JSON payload construction and floating-point calibration arithmetic are
abstracted (payloads as opaque strings, measured values as integers);
no claim below depends on either.
-/

namespace Spec2Proof

namespace EventBusModel

/-- `Event` as declared in `src/core/EventBus.h`: type identifier, source
component, opaque JSON payload and a timestamp (`millis()` at
construction, abstracted to a plain natural number). -/
structure Event where
  type : String
  source : String
  data : String
  timestamp : Nat
deriving Repr, DecidableEq

/-- Behaviour of a subscribed handler, as far as the bus can observe it:
it returns normally, raises an exception, or re-enters the bus by
publishing a chained event (type, source, payload) before returning.
This is the handler alphabet needed by the claims about dispatch. -/
inductive HandlerAct where
  | ret : HandlerAct
  | raise : HandlerAct
  | chain (etype : String) (source : String) (data : String) : HandlerAct
deriving Repr, DecidableEq

/-- A subscribed handler: an identity (so that invocations can be counted
and ordered) together with its behaviour. -/
structure Handler where
  hid : Nat
  act : HandlerAct
deriving Repr, DecidableEq

/-- Bus state: the subscriber table (`std::map<String, std::vector<EventHandler>>`,
kept as an association list whose per-type vectors preserve `push_back`
order) plus whether the mutex is currently held. -/
structure Bus where
  subscribers : List (String × List Handler)
  locked : Bool
deriving Repr, DecidableEq

/-- Lookup of `subscribers.find(eventType)`: the handler vector registered
under exactly this event-type string, or `[]` when absent. -/
def lookupSubs : List (String × List Handler) → String → List Handler
  | [], _ => []
  | (t, hs) :: rest, ty => if t = ty then hs else lookupSubs rest ty

/-- `subscribers[eventType].push_back(handler)`: append to the vector of
the given type, creating the entry if it does not exist yet. -/
def insertSub : List (String × List Handler) → String → Handler → List (String × List Handler)
  | [], ty, h => [(ty, [h])]
  | (t, hs) :: rest, ty, h =>
    if t = ty then (t, hs ++ [h]) :: rest else (t, hs) :: insertSub rest ty h

/-- `EventBus::subscribe` of `src/core/EventBus.cpp`: take the mutex with a
1000 ms timeout; on success append the handler and return `true`, on
timeout log and return `false` leaving the table unchanged. -/
def subscribeCore (b : Bus) (ty : String) (h : Handler) : Bus × Bool :=
  if b.locked then (b, false)
  else ({ b with subscribers := insertSub b.subscribers ty h }, true)

/-- Observable steps of a dispatch: a handler invocation (with the event it
received), the per-handler exception log of the catch blocks, and the
mutex-timeout log of the failed-take branch. -/
inductive Obs where
  | invoked (hid : Nat) (e : Event)
  | errorLog (etype : String)
  | timeoutLog (etype : String)
deriving Repr, DecidableEq

/-- The handler loop inside `EventBus::publish`: each handler of the
event's type is called in vector order; a raising handler is caught and
logged (`catch` blocks) and the loop continues; a handler that itself
publishes re-enters `publish` while the (non-recursive) mutex is still
held by this very dispatch — `pubNested` is that re-entrant call, which
`publishAux` ties to itself on the locked bus.  A chained event is built
by `Event(t, s, d)` (its `millis()` timestamp abstracted to 0). -/
def dispatchList (pubNested : Event → List Obs) (e : Event) : List Handler → List Obs
  | [] => []
  | h :: rest =>
    (Obs.invoked h.hid e ::
      (match h.act with
       | HandlerAct.ret => []
       | HandlerAct.raise => [Obs.errorLog e.type]
       | HandlerAct.chain t s d =>
         pubNested { type := t, source := s, data := d, timestamp := 0 }))
    ++ dispatchList pubNested e rest

/-- `EventBus::publish` of `src/core/EventBus.cpp`: take the mutex with a
1000 ms timeout; on timeout log `Publish timeout` and drop the event; on
success dispatch to every handler registered for the exact type string
and give the mutex back.  `fuel` bounds the re-entrancy depth; two levels
are exact for this model, since a re-entrant publish finds the mutex held
and returns at once (`publishAux_locked_snd`). -/
def publishAux : Nat → Bus → Event → Bus × List Obs
  | 0, b, _ => (b, [])
  | Nat.succ f, b, e =>
    if b.locked then (b, [Obs.timeoutLog e.type])
    else
      (b, dispatchList (fun e' => (publishAux f { b with locked := true } e').2) e
            (lookupSubs b.subscribers e.type))

/-- `EventBus::publish` with enough fuel for every behaviour the handler
alphabet can produce (a chained publish finds the mutex held and returns
without dispatching, so depth two is exact; see `publishAux_locked_snd`). -/
def publishCore (b : Bus) (e : Event) : Bus × List Obs :=
  publishAux 2 b e

/-- A bus built by a sequence of successful `subscribe` calls on the
freshly created (empty, unlocked) bus. -/
def mkBus (subs : List (String × Handler)) : Bus :=
  subs.foldl (fun b th => (subscribeCore b th.1 th.2).1)
    { subscribers := [], locked := false }

/-- The handler invocations of a dispatch trace, in order. -/
def invokedIds (obs : List Obs) : List Nat :=
  obs.filterMap fun o =>
    match o with
    | Obs.invoked i _ => some i
    | _ => none

/-- Outcome of a call into the legacy bus
(`EnvironmentalMonitoringDevice/src/EventBus.cpp`): the call can block
forever (a `portMAX_DELAY` take on a mutex that is never given back, or a
nested publish from a handler), let an exception escape (there is no
try/catch in `notifySubscribers`, and on that path `xSemaphoreGive` is
skipped), or complete normally. -/
inductive LegacyResult where
  | blocked
  | raised (obs : List Obs)
  | done (obs : List Obs)
deriving Repr, DecidableEq

/-- `EventBus::notifySubscribers` of the legacy bus: plain loop over the
type's handlers with no exception handling — a raising handler aborts the
loop and the exception propagates; a handler that publishes re-enters
`publish` with `portMAX_DELAY` while the mutex is held by this task, so
the call never returns. -/
def notifySubscribersLegacy : List Handler → Event → LegacyResult
  | [], _ => LegacyResult.done []
  | h :: rest, e =>
    match h.act with
    | HandlerAct.raise => LegacyResult.raised [Obs.invoked h.hid e]
    | HandlerAct.chain _ _ _ => LegacyResult.blocked
    | HandlerAct.ret =>
      match notifySubscribersLegacy rest e with
      | LegacyResult.done obs => LegacyResult.done (Obs.invoked h.hid e :: obs)
      | LegacyResult.raised obs => LegacyResult.raised (Obs.invoked h.hid e :: obs)
      | LegacyResult.blocked => LegacyResult.blocked

/-- `EventBus::publish` of the legacy bus: `xSemaphoreTake(mutex,
portMAX_DELAY)` — an unbounded wait with no timeout branch.  If the mutex
is held (and the holder cannot release it, e.g. it is this very task),
the call blocks forever; there is no logged failure and no return. -/
def publishLegacy (b : Bus) (e : Event) : LegacyResult :=
  if b.locked then LegacyResult.blocked
  else notifySubscribersLegacy (lookupSubs b.subscribers e.type) e

/-- `EventBus::subscribe` of the legacy bus: `void` return,
`portMAX_DELAY` take.  `none` means the call never returns; on success
the handler is appended and nothing is reported to the caller. -/
def subscribeLegacy (b : Bus) (ty : String) (h : Handler) : Option Bus :=
  if b.locked then none
  else some { b with subscribers := insertSub b.subscribers ty h }


end EventBusModel

namespace NozzleModel

/-- `NozzleState` of `EnvironmentalMonitoringDevice/src/VenturiNozzle.h`. -/
inductive NozzleState where
  | IDLE
  | PRESSURIZING
  | SPRAYING
  | PURGING
deriving Repr, DecidableEq

/-- The fields of class `VenturiNozzle`: pins, identity, state machine
state, the recorded solenoid states, the stage start time, whether a
spray task is alive (`taskHandle != nullptr`), and the three configurable
stage durations. -/
structure Nozzle where
  airPin : Nat
  nutrientPin : Nat
  nozzleId : Nat
  state : NozzleState
  airState : Bool
  nutrientState : Bool
  stateStartTime : Nat
  hasTask : Bool
  pressurizeDelay : Nat
  sprayDuration : Nat
  purgeDelay : Nat
deriving Repr, DecidableEq

/-- Observable hardware/bus effects of the nozzle code: `pinMode(p,
OUTPUT)`, `digitalWrite(p, HIGH/LOW)`, an event publication (type and
source; the JSON payload is abstracted), entering a state, and spawning
the spray task (`xTaskCreate`). -/
inductive HwAct where
  | pinModeOut (pin : Nat)
  | pinWrite (pin : Nat) (high : Bool)
  | pub (etype : String) (source : String)
  | enterState (s : NozzleState)
  | spawnSprayTask
deriving Repr, DecidableEq

/-- The `VenturiNozzle` constructor: `IDLE`, both solenoids recorded off,
no task, default stage durations 1000/5000/1000 ms. -/
def mkVenturiNozzle (airPin nutrientPin nozzleId : Nat) : Nozzle :=
  { airPin := airPin, nutrientPin := nutrientPin, nozzleId := nozzleId,
    state := NozzleState.IDLE, airState := false, nutrientState := false,
    stateStartTime := 0, hasTask := false,
    pressurizeDelay := 1000, sprayDuration := 5000, purgeDelay := 1000 }

/-- `VenturiNozzle::getName`. -/
def nozzleName (n : Nozzle) : String :=
  "VenturiNozzle" ++ toString n.nozzleId

/-- `VenturiNozzle::setAirSolenoid`: record the state and write the pin. -/
def setAirSolenoid (n : Nozzle) (b : Bool) : Nozzle × List HwAct :=
  ({ n with airState := b }, [HwAct.pinWrite n.airPin b])

/-- `VenturiNozzle::setNutrientSolenoid`: record the state and write the pin. -/
def setNutrientSolenoid (n : Nozzle) (b : Bool) : Nozzle × List HwAct :=
  ({ n with nutrientState := b }, [HwAct.pinWrite n.nutrientPin b])

/-- `VenturiNozzle::begin`: configure both pins as outputs, then force both
solenoids closed (safe state); returns `true`. -/
def beginNozzle (n : Nozzle) : Nozzle × List HwAct × Bool :=
  let r1 := setAirSolenoid n false
  let r2 := setNutrientSolenoid r1.1 false
  (r2.1,
   HwAct.pinModeOut n.airPin :: HwAct.pinModeOut n.nutrientPin :: (r1.2 ++ r2.2),
   true)

/-- `VenturiNozzle::stopSpray`: delete the spray task if any, immediately
close both solenoids, and set the machine to `IDLE`. -/
def stopSpray (n : Nozzle) : Nozzle × List HwAct :=
  let n0 := { n with hasTask := false }
  let r1 := setAirSolenoid n0 false
  let r2 := setNutrientSolenoid r1.1 false
  ({ r2.1 with state := NozzleState.IDLE }, r1.2 ++ r2.2)

/-- `VenturiNozzle::startSprayCycle`: reject (log only, no effect) when the
machine is not `IDLE`; otherwise create the spray task. -/
def startSprayCycle (n : Nozzle) : Nozzle × List HwAct :=
  if n.state ≠ NozzleState.IDLE then (n, [])
  else ({ n with hasTask := true }, [HwAct.spawnSprayTask])

/-- `VenturiNozzle::sprayTask`, entered at time `t0`, as a timed trace of
effects.  `vTaskDelay(pdMS_TO_TICKS(d))` is modelled as advancing the
task clock by exactly `d` ms.  The effect order is the statement order of
the source: enter `PRESSURIZING`, open air, publish `air.open`; wait;
enter `SPRAYING`, open nutrient, publish `nutrient.open`; wait; close
nutrient, publish `nutrient.close`, enter `PURGING`; wait; close air,
enter `IDLE`, publish `air.close`; the task then clears its handle and
self-deletes. -/
def sprayTask (n : Nozzle) (t0 : Nat) : Nozzle × List (Nat × HwAct) :=
  let n1 := { n with state := NozzleState.PRESSURIZING }
  let r1 := setAirSolenoid n1 true
  let n2 := { r1.1 with stateStartTime := t0 }
  let t1 := t0 + n.pressurizeDelay
  let n3 := { n2 with state := NozzleState.SPRAYING }
  let r2 := setNutrientSolenoid n3 true
  let t2 := t1 + n.sprayDuration
  let r3 := setNutrientSolenoid r2.1 false
  let n4 := { r3.1 with state := NozzleState.PURGING }
  let t3 := t2 + n.purgeDelay
  let r4 := setAirSolenoid n4 false
  let n5 := { r4.1 with state := NozzleState.IDLE, hasTask := false }
  (n5,
   [(t0, HwAct.enterState NozzleState.PRESSURIZING)]
     ++ r1.2.map (fun a => (t0, a))
     ++ [(t0, HwAct.pub "actuator.nozzle.air.open" (nozzleName n)),
         (t1, HwAct.enterState NozzleState.SPRAYING)]
     ++ r2.2.map (fun a => (t1, a))
     ++ [(t1, HwAct.pub "actuator.nozzle.nutrient.open" (nozzleName n))]
     ++ r3.2.map (fun a => (t2, a))
     ++ [(t2, HwAct.pub "actuator.nozzle.nutrient.close" (nozzleName n)),
         (t2, HwAct.enterState NozzleState.PURGING)]
     ++ r4.2.map (fun a => (t3, a))
     ++ [(t3, HwAct.enterState NozzleState.IDLE),
         (t3, HwAct.pub "actuator.nozzle.air.close" (nozzleName n))])

/-- The publications of a timed trace, in order. -/
def pubEvents (tr : List (Nat × HwAct)) : List (Nat × String) :=
  tr.filterMap fun ta =>
    match ta with
    | (t, HwAct.pub ty _) => some (t, ty)
    | _ => none

/-- The states entered along a timed trace, in order. -/
def statesEntered (tr : List (Nat × HwAct)) : List NozzleState :=
  tr.filterMap fun ta =>
    match ta with
    | (_, HwAct.enterState s) => some s
    | _ => none

/-- `a` occurs strictly before `b` in the trace (by position). -/
def actPrecedes (tr : List (Nat × HwAct)) (a b : HwAct) : Prop :=
  ∃ i j, i < j ∧ (tr.get? i).map Prod.snd = some a ∧ (tr.get? j).map Prod.snd = some b

end NozzleModel

namespace RelayModel

/-- Observable effects of the relay / single-pin nozzle actuator code. -/
inductive RAct where
  | pinModeOut (pin : Nat)
  | pinWrite (pin : Nat) (high : Bool)
  | pub (etype : String) (source : String)
deriving Repr, DecidableEq

/-- Fields of class `Relay` (`src/actuators/Relay.cpp`). -/
structure Relay where
  pin : Nat
  relayName : String
  state : Bool
deriving Repr, DecidableEq

/-- `Relay::setState`: record the state, write the pin, publish
`actuator.relay.changed` (payload abstracted). -/
def relaySetState (r : Relay) (newState : Bool) : Relay × List RAct :=
  ({ r with state := newState },
   [RAct.pinWrite r.pin newState,
    RAct.pub "actuator.relay.changed" r.relayName])

/-- `Relay::begin`: configure the pin as output and force the safe (off)
state via `setState(false)`; returns `true`. -/
def beginRelay (r : Relay) : Relay × List RAct × Bool :=
  let s := relaySetState r false
  (s.1, RAct.pinModeOut r.pin :: s.2, true)

/-- Fields of `VenturiNozzleActuator`
(`src/device/EnvironmentalDevice.cpp`): single nozzle pin, the
`initialized` flag (here `inited`), spray bookkeeping. -/
structure VNActuator where
  name : String
  nozzlePin : Nat
  inited : Bool
  sprayActive : Bool
  currentState : Bool
  sprayStartTime : Nat
  sprayDurationMs : Nat
deriving Repr, DecidableEq

/-- `VenturiNozzleActuator::begin`: configure the pin, drive it low
(nozzle off), clear `sprayActive`/`currentState`, set `initialized`;
returns `true`. -/
def beginVNActuator (a : VNActuator) : VNActuator × List RAct × Bool :=
  ({ a with sprayActive := false, currentState := false, inited := true },
   [RAct.pinModeOut a.nozzlePin, RAct.pinWrite a.nozzlePin false],
   true)

end RelayModel

namespace RegistryModel

/-- A device configuration together with the outcome of its factory call
and of the device's `begin()`, which are the only things
`SensorManager::addSensor` / `ActuatorManager::addActuator`
(`src/core/Managers.cpp`) inspect: `createOk = false` models
`createSensor`/`createActuator` returning null, `beginOk = false` models
`begin()` failing. -/
structure DeviceConfig where
  name : String
  createOk : Bool
  beginOk : Bool
deriving Repr, DecidableEq

/-- `SensorManager::addSensor`: create the device (fail if the factory
returns null), call `begin()` (fail if it returns false), then
`push_back` — the registry is a vector and no name check of any kind is
performed.  The registry is tracked by its device names. -/
def addSensor (sensors : List String) (cfg : DeviceConfig) : List String × Bool :=
  if cfg.createOk = false then (sensors, false)
  else if cfg.beginOk = false then (sensors, false)
  else (sensors ++ [cfg.name], true)

/-- `ActuatorManager::addActuator`: identical shape to `addSensor`
(create, `begin()`, `push_back`; no duplicate-name validation). -/
def addActuator (actuators : List String) (cfg : DeviceConfig) : List String × Bool :=
  if cfg.createOk = false then (actuators, false)
  else if cfg.beginOk = false then (actuators, false)
  else (actuators ++ [cfg.name], true)

end RegistryModel

namespace SensorModel

/-- `SensorReading` of `src/include/SensorManager.h`; `float value` is
abstracted to an integer (no claim depends on the arithmetic).  The
default constructor gives `value = 0`, `timestamp = 0`, `valid = false`
and empty strings. -/
structure SensorReading where
  sensorName : String
  type : String
  value : Int
  unit : String
  timestamp : Nat
  valid : Bool
deriving Repr, DecidableEq

/-- The default-constructed `SensorReading` (invalid). -/
def emptyReading : SensorReading :=
  { sensorName := "", type := "", value := 0, unit := "", timestamp := 0, valid := false }

/-- Mutable fields of `SHT30Sensor` (`src/include/SHT3xSensor.h`):
the `initialized` flag (here `inited`), the cache timestamp and the two
cached calibrated values, plus the calibration parameters of its config. -/
structure SHT30Sensor where
  name : String
  inited : Bool
  lastReadTime : Nat
  lastTemperature : Int
  lastHumidity : Int
  calOffset : Int
  calScale : Int
deriving Repr, DecidableEq

/-- `SHT30Sensor::READ_INTERVAL_MS`. -/
def READ_INTERVAL_MS : Nat := 2000

/-- `SHT30Sensor::applyCalibration`: offset-and-scale; humidity is
clamped to 0..100 (`constrain`). -/
def applyCalibration (s : SHT30Sensor) (rawValue : Int) (isTemperature : Bool) : Int :=
  let v := (rawValue + s.calOffset) * s.calScale
  if isTemperature then v else max 0 (min 100 v)

/-- One response of the SHT3x chip
(`sht3x.readTemperatureAndHumidity`): the `ERR` code (0 = success, any
other value = failed validation) and the raw measurements. -/
structure HwSample where
  err : Int
  temperatureC : Int
  humidity : Int
deriving Repr, DecidableEq

/-- `SHT30Sensor::isReady`. -/
def isReady (s : SHT30Sensor) : Bool := s.inited

/-- `SHT30Sensor::read` (`src/sensors/SHT3xSensor.cpp`), at wall-clock
`now` with chip response `hw`.  Uninitialised sensors return an invalid
reading; within `READ_INTERVAL_MS` of the last successful read the cached
temperature is returned as valid; otherwise the chip is read: on
`ERR = 0` the caches are updated and a valid reading returned, on any
other error code the reading stays invalid — and the sensor state is not
modified (in particular `initialized` is untouched). -/
def read (s : SHT30Sensor) (now : Nat) (hw : HwSample) : SHT30Sensor × SensorReading :=
  let reading0 := { emptyReading with sensorName := s.name, valid := false }
  if s.inited = false then (s, reading0)
  else if now - s.lastReadTime < READ_INTERVAL_MS then
    (s, { reading0 with
          type := "temperature", value := s.lastTemperature,
          unit := "°C", timestamp := s.lastReadTime, valid := true })
  else if hw.err = 0 then
    let t := applyCalibration s hw.temperatureC true
    let h := applyCalibration s hw.humidity false
    ({ s with lastTemperature := t, lastHumidity := h, lastReadTime := now },
     { reading0 with
       type := "temperature", value := t,
       unit := "°C", timestamp := now, valid := true })
  else (s, reading0)

/-- `SensorManager::readAllSensors` (`src/sensors/SensorManager.cpp`):
iterate the sensors (each paired with its chip response this cycle), skip
any sensor whose `isReady()` is false, collect every produced reading
into `lastReadings`, and publish a sensor event only for valid readings.
Returns the updated sensors, the collected readings, and the readings
that were published. -/
def readAllSensors : List (SHT30Sensor × HwSample) → Nat →
    List SHT30Sensor × List SensorReading × List SensorReading
  | [], _ => ([], [], [])
  | (s, hw) :: rest, now =>
    let r := readAllSensors rest now
    if isReady s = false then (s :: r.1, r.2.1, r.2.2)
    else
      let sr := read s now hw
      (sr.1 :: r.1, sr.2 :: r.2.1, if sr.2.valid then sr.2 :: r.2.2 else r.2.2)

end SensorModel

namespace EventBusModel

namespace Lemmas

/-- Inserting a handler under type `t` appends it to `t`'s vector and
leaves every other type's vector unchanged. -/
theorem lookupSubs_insertSub (tbl : List (String × List Handler)) (t ty : String) (h : Handler) :
    lookupSubs (insertSub tbl t h) ty =
      if t = ty then lookupSubs tbl ty ++ [h] else lookupSubs tbl ty := by
  induction tbl with
  | nil =>
    by_cases hty : t = ty <;> simp [insertSub, lookupSubs, hty]
  | cons p rest ih =>
    obtain ⟨t', hs⟩ := p
    by_cases h1 : t' = t
    · subst h1
      by_cases h2 : t' = ty <;> simp [insertSub, lookupSubs, h2]
    · by_cases h2 : t' = ty
      · subst h2
        simp [insertSub, lookupSubs, h1, Ne.symm h1]
      · simp [insertSub, lookupSubs, h1, h2, ih]

/-- The subscription fold of `mkBus` keeps the bus unlocked. -/
theorem foldl_subscribe_locked (subs : List (String × Handler))
    (tbl : List (String × List Handler)) :
    (subs.foldl (fun b th => (subscribeCore b th.1 th.2).1) ⟨tbl, false⟩).locked = false := by
  induction subs generalizing tbl with
  | nil => rfl
  | cons th rest ih => simpa [subscribeCore] using ih (insertSub tbl th.1 th.2)

/-- After subscribing `subs` in order onto a table, the vector registered
under `ty` is the old vector followed by exactly the handlers subscribed
to `ty`, in subscription order. -/
theorem foldl_subscribe_lookup (subs : List (String × Handler))
    (tbl : List (String × List Handler)) (ty : String) :
    lookupSubs ((subs.foldl (fun b th => (subscribeCore b th.1 th.2).1)
        ⟨tbl, false⟩).subscribers) ty
      = lookupSubs tbl ty ++ (subs.filter (fun th => th.1 = ty)).map (fun th => th.2) := by
  induction subs generalizing tbl with
  | nil => simp
  | cons th rest ih =>
    obtain ⟨t1, h1⟩ := th
    have step :
        (subscribeCore ⟨tbl, false⟩ t1 h1).1 =
          (⟨insertSub tbl t1 h1, false⟩ : Bus) := by
      simp [subscribeCore]
    rw [List.foldl_cons]
    simp only [step]
    rw [ih (insertSub tbl t1 h1), lookupSubs_insertSub]
    by_cases hty : t1 = ty
    · simp [hty, List.append_assoc]
    · simp [hty]

/-- `mkBus` is unlocked. -/
theorem mkBus_locked (subs : List (String × Handler)) : (mkBus subs).locked = false :=
  foldl_subscribe_locked subs []

/-- The handler vector a built bus holds under `ty`. -/
theorem mkBus_lookup (subs : List (String × Handler)) (ty : String) :
    lookupSubs (mkBus subs).subscribers ty
      = (subs.filter (fun th => th.1 = ty)).map (fun th => th.2) := by
  simpa [lookupSubs] using foldl_subscribe_lookup subs [] ty

/-- A publish against a locked bus never invokes anything: it either runs
out of fuel or takes the timeout branch. -/
theorem publishAux_locked_snd (fuel : Nat) (b : Bus) (e : Event) (hb : b.locked = true) :
    (publishAux fuel b e).2 = [] ∨ (publishAux fuel b e).2 = [Obs.timeoutLog e.type] := by
  cases fuel with
  | zero => exact Or.inl rfl
  | succ f => right; simp [publishAux, hb]

/-- `invokedIds` distributes over trace concatenation. -/
theorem invokedIds_append (xs ys : List Obs) :
    invokedIds (xs ++ ys) = invokedIds xs ++ invokedIds ys :=
  List.filterMap_append xs ys _

/-- `i` is among the invoked ids as soon as an invocation of `i` is in
the trace. -/
theorem mem_invokedIds_of_mem {l : List Obs} {i : Nat} {e : Event}
    (h : Obs.invoked i e ∈ l) : i ∈ invokedIds l :=
  List.mem_filterMap.mpr ⟨Obs.invoked i e, h, rfl⟩

/-- No invocation is observed by a publish against a locked bus. -/
theorem invokedIds_publishAux_locked (fuel : Nat) (b : Bus) (e : Event) (hb : b.locked = true) :
    invokedIds (publishAux fuel b e).2 = [] := by
  rcases publishAux_locked_snd fuel b e hb with h | h <;> simp [h, invokedIds]

/-- The handler loop invokes exactly the handlers of the list, in order,
once each — whatever the handlers do — provided the re-entrant publish
invokes nobody (which `invokedIds_publishAux_locked` supplies). -/
theorem invokedIds_dispatchList (pubNested : Event → List Obs)
    (hpub : ∀ e', invokedIds (pubNested e') = []) (e : Event) (hs : List Handler) :
    invokedIds (dispatchList pubNested e hs) = hs.map Handler.hid := by
  induction hs with
  | nil => simp [dispatchList, invokedIds]
  | cons h rest ih =>
    rw [dispatchList, invokedIds_append, ih]
    cases hact : h.act with
    | ret => simp [invokedIds]
    | raise => simp [invokedIds]
    | chain t s d =>
      have := hpub { type := t, source := s, data := d, timestamp := 0 }
      simp only [invokedIds] at this ⊢
      simp [this]

/-- The handler loop splits over list concatenation. -/
theorem dispatchList_append (pubNested : Event → List Obs) (e : Event) (xs ys : List Handler) :
    dispatchList pubNested e (xs ++ ys) =
      dispatchList pubNested e xs ++ dispatchList pubNested e ys := by
  induction xs with
  | nil => simp [dispatchList]
  | cons h rest ih => rw [List.cons_append, dispatchList, dispatchList, ih, List.append_assoc]

/-- Every handler of the list is invoked with the dispatched event. -/
theorem invoked_mem_dispatchList (pubNested : Event → List Obs) (e : Event) (hs : List Handler)
    (h : Handler) (hmem : h ∈ hs) :
    Obs.invoked h.hid e ∈ dispatchList pubNested e hs := by
  induction hs with
  | nil => cases hmem
  | cons h0 rest ih =>
    rw [dispatchList]
    rcases List.mem_cons.mp hmem with rfl | hmem'
    · exact List.mem_append_left _ (List.mem_cons_self _ _)
    · exact List.mem_append_right _ (ih hmem')

/-- Every invocation in the handler loop carries the dispatched event
itself: when the re-entrant publish invokes nobody, a chained event is
never delivered to anyone. -/
theorem invoked_dispatchList_event (pubNested : Event → List Obs)
    (hpub : ∀ e', invokedIds (pubNested e') = []) (e : Event) (hs : List Handler)
    (i : Nat) (e' : Event) (hmem : Obs.invoked i e' ∈ dispatchList pubNested e hs) :
    e' = e := by
  induction hs with
  | nil => cases hmem
  | cons h rest ih =>
    rw [dispatchList] at hmem
    rcases List.mem_append.mp hmem with hleft | hright
    · rcases List.mem_cons.mp hleft with heq | htail
      · cases heq; rfl
      · exfalso
        cases hact : h.act with
        | ret => rw [hact] at htail; cases htail
        | raise => rw [hact] at htail; simp at htail
        | chain t s d =>
          rw [hact] at htail
          have : i ∈ invokedIds (pubNested { type := t, source := s, data := d, timestamp := 0 }) :=
            mem_invokedIds_of_mem htail
          rw [hpub] at this
          cases this
    · exact ih hright

/-- `publish` on an unlocked core bus acquires the mutex and runs the
handler loop, the nested-publish continuation seeing a locked bus. -/
theorem publishCore_unlocked_snd (b : Bus) (e : Event) (hb : b.locked = false) :
    (publishCore b e).2 =
      dispatchList (fun e' => (publishAux 1 { b with locked := true } e').2) e
        (lookupSubs b.subscribers e.type) := by
  show (publishAux (Nat.succ 1) b e).2 = _
  simp [publishAux, hb]

/-- A publish with one unit of fuel against a locked bus produces exactly
the timeout log. -/
theorem publishAux_one_locked (b : Bus) (e : Event) (hb : b.locked = true) :
    (publishAux 1 b e).2 = [Obs.timeoutLog e.type] := by
  show (publishAux (Nat.succ 0) b e).2 = _
  simp [publishAux, hb]

/-- `publish` on a locked core bus times out within the 1000 ms bound,
logs the failure and drops the event, leaving the bus unchanged. -/
theorem publishCore_locked (b : Bus) (e : Event) (hb : b.locked = true) :
    publishCore b e = (b, [Obs.timeoutLog e.type]) := by
  show publishAux (Nat.succ 1) b e = _
  simp [publishAux, hb]

/-- A chained publish made from inside the handler loop takes the timeout
branch of the nested `publish` (which finds the mutex held): its timeout
log appears in the dispatch trace. -/
theorem chain_timeout_mem_dispatchList (pubNested : Event → List Obs)
    (hpub : ∀ e', Obs.timeoutLog e'.type ∈ pubNested e') (e : Event) (hs : List Handler)
    (h : Handler) (t s d : String) (hmem : h ∈ hs) (hact : h.act = HandlerAct.chain t s d) :
    Obs.timeoutLog t ∈ dispatchList pubNested e hs := by
  induction hs with
  | nil => cases hmem
  | cons h0 rest ih =>
    rw [dispatchList]
    rcases List.mem_cons.mp hmem with rfl | hmem'
    · apply List.mem_append_left
      rw [hact]
      exact List.mem_cons_of_mem _ (hpub _)
    · exact List.mem_append_right _ (ih hmem')

end Lemmas

end EventBusModel

namespace SensorModel

/-- Every reading published by `readAllSensors` is valid: invalid readings
are collected into `lastReadings` but never handed to
`publishSensorEvent`. -/
theorem published_readings_valid (pairs : List (SHT30Sensor × HwSample)) (now : Nat)
    (r : SensorReading) (hmem : r ∈ (readAllSensors pairs now).2.2) : r.valid = true := by
  induction pairs with
  | nil => cases hmem
  | cons p rest ih =>
    obtain ⟨s, hw⟩ := p
    rw [readAllSensors] at hmem
    by_cases hr : isReady s = false
    · rw [if_pos hr] at hmem
      exact ih hmem
    · rw [if_neg hr] at hmem
      by_cases hv : (read s now hw).2.valid = true
      · simp only [hv, if_true] at hmem
        rcases List.mem_cons.mp hmem with rfl | hm
        · exact hv
        · exact ih hm
      · simp only [hv, if_false, Bool.false_eq_true] at hmem
        exact ih hmem

end SensorModel

section Claims

open EventBusModel NozzleModel RelayModel RegistryModel SensorModel

/-- C1: for every event type `T` with handlers subscribed in a given
order, one `publish` of an event of type `T` invokes exactly the handlers
registered for that exact type string, each exactly once, in registration
order (the dispatch happens inside the very `publish` call, i.e. on the
caller's context); handlers registered for other types are not invoked.
Stated over a bus built by an arbitrary subscription sequence: the
invocation trace equals the subscription sequence filtered to type `T`. -/
theorem publish_invokes_exact_type_handlers_in_order
    (subs : List (String × Handler)) (T src payload : String) (ts : Nat) :
    invokedIds (publishCore (mkBus subs)
        { type := T, source := src, data := payload, timestamp := ts }).2
      = (subs.filter (fun th => th.1 = T)).map (fun th => th.2.hid) := by
  rw [Lemmas.publishCore_unlocked_snd _ _ (Lemmas.mkBus_locked subs),
      Lemmas.invokedIds_dispatchList _
        (fun e' => Lemmas.invokedIds_publishAux_locked 1 _ e' rfl),
      Lemmas.mkBus_lookup, List.map_map]
  rfl

/-- C2 (amended): a handler that publishes a new event during dispatch
does NOT get it delivered: the nested `publish` runs while the
non-recursive mutex is still held by the dispatching call, so it takes
the 1000 ms lock-timeout failure branch — the timeout is logged and the
chained event is dropped; nobody is ever invoked with any event other
than the one being dispatched. -/
theorem nested_publish_times_out
    (b : Bus) (e : Event) (h : Handler) (t s d : String)
    (hb : b.locked = false) (hmem : h ∈ lookupSubs b.subscribers e.type)
    (hact : h.act = HandlerAct.chain t s d) :
    Obs.timeoutLog t ∈ (publishCore b e).2 ∧
    ∀ i e', Obs.invoked i e' ∈ (publishCore b e).2 → e' = e := by
  rw [Lemmas.publishCore_unlocked_snd b e hb]
  refine ⟨?_, ?_⟩
  · refine Lemmas.chain_timeout_mem_dispatchList _ ?_ e _ h t s d hmem hact
    intro e'
    rw [Lemmas.publishAux_one_locked _ e' rfl]
    exact List.mem_singleton_self _
  · intro i e' hm
    exact Lemmas.invoked_dispatchList_event _
      (fun e'' => Lemmas.invokedIds_publishAux_locked 1 _ e'' rfl) e _ i e' hm

/-- C2 witness: a concrete bus where the only handler of `"A"` chains a
publish of `"B"`; the timeout log for `"B"` appears in the dispatch
trace. -/
theorem nested_publish_times_out_witness :
    Obs.timeoutLog "B" ∈
      (publishCore (mkBus [("A", ⟨1, HandlerAct.chain "B" "h1" "p"⟩), ("B", ⟨2, HandlerAct.ret⟩)])
        { type := "A", source := "main", data := "", timestamp := 0 }).2 :=
  (nested_publish_times_out _ _ ⟨1, HandlerAct.chain "B" "h1" "p"⟩ "B" "h1" "p"
    rfl (by decide) rfl).1

/-- C2 counterexample: the claim says a nested publish made from inside a
handler acquires the bus and delivers the chained event to that type's
subscribers rather than hitting the lock-timeout branch.  On the concrete
bus where handler 1 (subscribed to `"A"`) publishes a `"B"` event and
handler 2 is subscribed to `"B"`, dispatching an `"A"` event produces the
timeout log for `"B"` and handler 2 is never invoked. -/
theorem nested_publish_delivery_counterexample :
    (publishCore (mkBus [("A", ⟨1, HandlerAct.chain "B" "h1" "p"⟩), ("B", ⟨2, HandlerAct.ret⟩)])
        { type := "A", source := "main", data := "", timestamp := 0 }).2
      = [Obs.invoked 1 { type := "A", source := "main", data := "", timestamp := 0 },
         Obs.timeoutLog "B"] ∧
    invokedIds (publishCore (mkBus [("A", ⟨1, HandlerAct.chain "B" "h1" "p"⟩),
          ("B", ⟨2, HandlerAct.ret⟩)])
        { type := "A", source := "main", data := "", timestamp := 0 }).2
      = [1] :=
  ⟨rfl, rfl⟩

/-- C3 (amended): on the core bus, when the subscriber-table mutex cannot
be acquired (bounded 1000 ms wait fails), `publish` returns promptly with
a logged timeout dropping the dispatch and `subscribe` returns `false`
with the table unchanged.  On the legacy bus the wait is `portMAX_DELAY`:
a `publish` or `subscribe` issued while the lock is unavailable blocks
with no timeout branch and no logged failure. -/
theorem lock_unavailable_core_fails_fast_legacy_blocks
    (b : Bus) (e : Event) (ty : String) (h : Handler) (hb : b.locked = true) :
    publishCore b e = (b, [Obs.timeoutLog e.type]) ∧
    subscribeCore b ty h = (b, false) ∧
    publishLegacy b e = LegacyResult.blocked ∧
    subscribeLegacy b ty h = none := by
  refine ⟨Lemmas.publishCore_locked b e hb, ?_, ?_, ?_⟩ <;>
    simp [subscribeCore, publishLegacy, subscribeLegacy, hb]

/-- C3 witness: the fail-fast/blocking behaviours at a concrete locked
bus. -/
theorem lock_unavailable_core_fails_fast_legacy_blocks_witness :
    publishCore ⟨[], true⟩ { type := "A", source := "m", data := "", timestamp := 0 }
      = (⟨[], true⟩, [Obs.timeoutLog "A"]) ∧
    subscribeCore ⟨[], true⟩ "A" ⟨1, HandlerAct.ret⟩ = (⟨[], true⟩, false) ∧
    publishLegacy ⟨[], true⟩ { type := "A", source := "m", data := "", timestamp := 0 }
      = LegacyResult.blocked ∧
    subscribeLegacy ⟨[], true⟩ "A" ⟨1, HandlerAct.ret⟩ = none :=
  lock_unavailable_core_fails_fast_legacy_blocks ⟨[], true⟩
    { type := "A", source := "m", data := "", timestamp := 0 } "A" ⟨1, HandlerAct.ret⟩ rfl

/-- C3 counterexample: the claim quantifies over every `publish` and
`subscribe` call of the program, which includes the legacy bus
(`EnvironmentalMonitoringDevice/src/EventBus.cpp`).  There the lock is
taken with `portMAX_DELAY`: with the lock unavailable, `publish` blocks
indefinitely instead of returning promptly with a logged failure, and
`subscribe` (which is `void` and has no failure path) blocks as well. -/
theorem legacy_lock_wait_unbounded_counterexample :
    publishLegacy ⟨[("A", [⟨1, HandlerAct.ret⟩])], true⟩
        { type := "A", source := "m", data := "", timestamp := 0 }
      = LegacyResult.blocked ∧
    subscribeLegacy ⟨[("A", [⟨1, HandlerAct.ret⟩])], true⟩ "A" ⟨2, HandlerAct.ret⟩ = none :=
  ⟨rfl, rfl⟩

/-- C4 (amended): on the core bus a raising handler is caught and logged
and every later handler for the same event is still invoked — dispatch is
not aborted.  (The legacy bus does not have this property; see the
counterexample.) -/
theorem handler_fault_core_dispatch_continues
    (b : Bus) (e : Event) (l1 l2 : List Handler) (hbad : Handler)
    (hb : b.locked = false)
    (hsplit : lookupSubs b.subscribers e.type = l1 ++ hbad :: l2)
    (hraise : hbad.act = HandlerAct.raise) :
    Obs.errorLog e.type ∈ (publishCore b e).2 ∧
    ∀ h ∈ l2, Obs.invoked h.hid e ∈ (publishCore b e).2 := by
  rw [Lemmas.publishCore_unlocked_snd b e hb, hsplit]
  constructor
  · rw [Lemmas.dispatchList_append]
    apply List.mem_append_right
    rw [dispatchList, hraise]
    exact List.mem_append_left _ (List.mem_cons_of_mem _ (List.mem_cons_self _ _))
  · intro h hm
    rw [Lemmas.dispatchList_append]
    exact List.mem_append_right _
      (Lemmas.invoked_mem_dispatchList _ e _ h (List.mem_cons_of_mem _ hm))

/-- C4 witness: with handler 1 raising and handler 2 subscribed after it
on the same type, the core bus logs the fault and still invokes
handler 2. -/
theorem handler_fault_core_dispatch_continues_witness :
    Obs.errorLog "A" ∈
      (publishCore (mkBus [("A", ⟨1, HandlerAct.raise⟩), ("A", ⟨2, HandlerAct.ret⟩)])
        { type := "A", source := "m", data := "", timestamp := 0 }).2 :=
  (handler_fault_core_dispatch_continues _ _ [] [⟨2, HandlerAct.ret⟩] ⟨1, HandlerAct.raise⟩
    rfl (by decide) rfl).1

/-- C4 counterexample: the claim's sources include the legacy bus, whose
`notifySubscribers` has no try/catch.  With handler 1 raising and
handler 2 subscribed after it for the same type, dispatch aborts at
handler 1 (the exception escapes, the mutex is never given back) and
handler 2 is never invoked. -/
theorem legacy_handler_fault_aborts_counterexample :
    publishLegacy ⟨[("A", [⟨1, HandlerAct.raise⟩, ⟨2, HandlerAct.ret⟩])], false⟩
        { type := "A", source := "m", data := "", timestamp := 0 }
      = LegacyResult.raised
          [Obs.invoked 1 { type := "A", source := "m", data := "", timestamp := 0 }] :=
  rfl

/-- C5: from every starting state of the nozzle state machine, `stop`
(i.e. `VenturiNozzle::stopSpray`) leaves both the air and nutrient valves
de-energized and the machine in `Idle`; it is idempotent (a second call
yields the identical de-energized Idle state); and no hardware write it
performs — on the first or any later call — energizes an output. -/
theorem stopSpray_deenergizes_idle_idempotent (n : Nozzle) :
    (stopSpray n).1.airState = false ∧
    (stopSpray n).1.nutrientState = false ∧
    (stopSpray n).1.state = NozzleState.IDLE ∧
    (stopSpray (stopSpray n).1).1 = (stopSpray n).1 ∧
    (stopSpray n).2 = [HwAct.pinWrite n.airPin false, HwAct.pinWrite n.nutrientPin false] ∧
    (stopSpray (stopSpray n).1).2
      = [HwAct.pinWrite n.airPin false, HwAct.pinWrite n.nutrientPin false] :=
  ⟨rfl, rfl, rfl, rfl, rfl, rfl⟩

/-- C6: `start` (i.e. `VenturiNozzle::startSprayCycle`) on a machine that
is not `Idle` is a no-op: the machine (state, valve records, timing
fields) is returned unchanged and no effect — in particular no task
spawn — is produced. -/
theorem startSprayCycle_non_idle_noop (n : Nozzle) (h : n.state ≠ NozzleState.IDLE) :
    startSprayCycle n = (n, []) := by
  simp [startSprayCycle, h]

/-- C6 witness: `start` on a concrete machine currently `SPRAYING`. -/
theorem startSprayCycle_non_idle_noop_witness :
    startSprayCycle { mkVenturiNozzle 4 5 1 with state := NozzleState.SPRAYING }
      = ({ mkVenturiNozzle 4 5 1 with state := NozzleState.SPRAYING }, []) :=
  startSprayCycle_non_idle_noop _ (by decide)

/-- C7: a full spray cycle publishes, in order, air-open, then spray-open
no earlier than `pressurizeDelay` later, then spray-close no earlier than
`sprayDuration` later, then air-close no earlier than `purgeDelay` later
(the spray valve is the nutrient solenoid, so the events are
`actuator.nozzle.air.open`, `.nutrient.open`, `.nutrient.close`,
`.air.close`); it visits `PRESSURIZING`, `SPRAYING`, `PURGING` in that
order and ends with the machine in `IDLE`; and each of the four events is
published only after the corresponding solenoid write. -/
theorem sprayTask_full_cycle_order (n : Nozzle) (t0 : Nat) :
    (sprayTask n t0).1.state = NozzleState.IDLE ∧
    (∃ t1 t2 t3 t4,
      pubEvents (sprayTask n t0).2 =
        [(t1, "actuator.nozzle.air.open"), (t2, "actuator.nozzle.nutrient.open"),
         (t3, "actuator.nozzle.nutrient.close"), (t4, "actuator.nozzle.air.close")] ∧
      t1 + n.pressurizeDelay ≤ t2 ∧ t2 + n.sprayDuration ≤ t3 ∧ t3 + n.purgeDelay ≤ t4) ∧
    statesEntered (sprayTask n t0).2 =
      [NozzleState.PRESSURIZING, NozzleState.SPRAYING, NozzleState.PURGING,
       NozzleState.IDLE] ∧
    actPrecedes (sprayTask n t0).2 (HwAct.pinWrite n.airPin true)
      (HwAct.pub "actuator.nozzle.air.open" (nozzleName n)) ∧
    actPrecedes (sprayTask n t0).2 (HwAct.pinWrite n.nutrientPin true)
      (HwAct.pub "actuator.nozzle.nutrient.open" (nozzleName n)) ∧
    actPrecedes (sprayTask n t0).2 (HwAct.pinWrite n.nutrientPin false)
      (HwAct.pub "actuator.nozzle.nutrient.close" (nozzleName n)) ∧
    actPrecedes (sprayTask n t0).2 (HwAct.pinWrite n.airPin false)
      (HwAct.pub "actuator.nozzle.air.close" (nozzleName n)) :=
  ⟨rfl,
   ⟨t0, t0 + n.pressurizeDelay, t0 + n.pressurizeDelay + n.sprayDuration,
    t0 + n.pressurizeDelay + n.sprayDuration + n.purgeDelay,
    rfl, Nat.le_refl _, Nat.le_refl _, Nat.le_refl _⟩,
   rfl,
   ⟨1, 2, by decide, rfl, rfl⟩,
   ⟨4, 5, by decide, rfl, rfl⟩,
   ⟨6, 7, by decide, rfl, rfl⟩,
   ⟨9, 11, by decide, rfl, rfl⟩⟩

/-- C8 counterexample: registering a device whose name is already present
does not fail and does change the registry: `addSensor` (and
`addActuator`) perform no duplicate-name check, so the device is appended
and the collection grows. -/
theorem duplicate_name_registration_counterexample :
    addSensor ["sht30"] ⟨"sht30", true, true⟩ = (["sht30", "sht30"], true) ∧
    addActuator ["pump"] ⟨"pump", true, true⟩ = (["pump", "pump"], true) :=
  ⟨rfl, rfl⟩

/-- C8 (amended): registration never checks names: whenever the factory
produces the device and its `begin()` succeeds, `addSensor`/`addActuator`
append it and report success — even if the name is already registered;
they fail (with the collection unchanged) only when creation or `begin()`
fails. -/
theorem registration_appends_regardless_of_name
    (sensors actuators : List String) (cfg : DeviceConfig)
    (hc : cfg.createOk = true) (hb : cfg.beginOk = true) :
    addSensor sensors cfg = (sensors ++ [cfg.name], true) ∧
    addActuator actuators cfg = (actuators ++ [cfg.name], true) := by
  constructor <;> simp [addSensor, addActuator, hc, hb]

/-- C8 witness: the amended statement at a duplicate name. -/
theorem registration_appends_regardless_of_name_witness :
    addSensor ["a"] ⟨"a", true, true⟩ = (["a", "a"], true) ∧
    addActuator ["b"] ⟨"a", true, true⟩ = (["b", "a"], true) :=
  registration_appends_regardless_of_name ["a"] ["b"] ⟨"a", true, true⟩ rfl rfl

/-- C9 counterexample: a sensor whose chip read fails validation
(`ERR ≠ 0`) yields an invalid reading but does NOT mark itself not-ready:
its state (including `initialized`) is unchanged, `isReady()` still
returns `true`, and on the next `readAllSensors` cycle it is read again
(it produces a reading) rather than being skipped. -/
theorem failed_read_sensor_stays_ready_counterexample :
    (read ⟨"sht30", true, 0, 0, 0, 0, 1⟩ 5000 ⟨1, 0, 0⟩).2.valid = false ∧
    (read ⟨"sht30", true, 0, 0, 0, 0, 1⟩ 5000 ⟨1, 0, 0⟩).1 = ⟨"sht30", true, 0, 0, 0, 0, 1⟩ ∧
    isReady (read ⟨"sht30", true, 0, 0, 0, 0, 1⟩ 5000 ⟨1, 0, 0⟩).1 = true ∧
    (readAllSensors [(⟨"sht30", true, 0, 0, 0, 0, 1⟩, ⟨1, 0, 0⟩)] 9000).2.1
      = [{ emptyReading with sensorName := "sht30" }] :=
  ⟨rfl, rfl, rfl, rfl⟩

/-- C9 (amended): a read that fails validation yields an invalid reading,
which `readAllSensors` never publishes as a valid value — but the sensor
does not mark itself not-ready: its state is unchanged, it remains ready,
and it is simply read again on the next cycle (no skip, no
re-initialization step exists). -/
theorem failed_read_invalid_never_published_sensor_unchanged
    (s : SHT30Sensor) (now : Nat) (hw : HwSample)
    (hinit : s.inited = true)
    (hstale : ¬ (now - s.lastReadTime < READ_INTERVAL_MS))
    (herr : ¬ (hw.err = 0)) :
    (read s now hw).2.valid = false ∧
    (read s now hw).1 = s ∧
    isReady (read s now hw).1 = true ∧
    (∀ pairs m r, r ∈ (readAllSensors pairs m).2.2 → r.valid = true) := by
  refine ⟨?_, ?_, ?_, fun pairs m r hm => published_readings_valid pairs m r hm⟩ <;>
    simp [SensorModel.read, SensorModel.isReady, hinit, hstale, herr]

/-- C9 witness: the amended statement at a concrete failed read. -/
theorem failed_read_invalid_never_published_sensor_unchanged_witness :
    (read ⟨"sht30x", true, 100, 0, 0, 0, 1⟩ 4000 ⟨2, 0, 0⟩).2.valid = false :=
  (failed_read_invalid_never_published_sensor_unchanged
    ⟨"sht30x", true, 100, 0, 0, 0, 1⟩ 4000 ⟨2, 0, 0⟩ rfl (by decide) (by decide)).1

/-- C10: every actuator's `begin()` establishes the de-energized safe
state before returning success: `VenturiNozzle::begin` (on a freshly
constructed nozzle) drives both solenoid pins low, records both valve
states off and leaves the machine `IDLE`; `Relay::begin` drives its pin
low via `setState(false)` and records the relay off;
`VenturiNozzleActuator::begin` drives the nozzle pin low, clears
`sprayActive`/`currentState` and only then marks itself ready — all
returning `true`. -/
theorem begin_establishes_safe_state
    (ap np idn rp : Nat) (rn : String) (rs : Bool) (a : VNActuator) :
    (beginNozzle (mkVenturiNozzle ap np idn)).1.airState = false ∧
    (beginNozzle (mkVenturiNozzle ap np idn)).1.nutrientState = false ∧
    (beginNozzle (mkVenturiNozzle ap np idn)).1.state = NozzleState.IDLE ∧
    (beginNozzle (mkVenturiNozzle ap np idn)).2.1
      = [HwAct.pinModeOut ap, HwAct.pinModeOut np,
         HwAct.pinWrite ap false, HwAct.pinWrite np false] ∧
    (beginNozzle (mkVenturiNozzle ap np idn)).2.2 = true ∧
    (beginRelay ⟨rp, rn, rs⟩).1.state = false ∧
    (beginRelay ⟨rp, rn, rs⟩).2.1
      = [RAct.pinModeOut rp, RAct.pinWrite rp false,
         RAct.pub "actuator.relay.changed" rn] ∧
    (beginRelay ⟨rp, rn, rs⟩).2.2 = true ∧
    (beginVNActuator a).1.sprayActive = false ∧
    (beginVNActuator a).1.currentState = false ∧
    (beginVNActuator a).1.inited = true ∧
    (beginVNActuator a).2.1
      = [RAct.pinModeOut a.nozzlePin, RAct.pinWrite a.nozzlePin false] ∧
    (beginVNActuator a).2.2 = true :=
  ⟨rfl, rfl, rfl, rfl, rfl, rfl, rfl, rfl, rfl, rfl, rfl, rfl, rfl⟩

end Claims

end Spec2Proof
